import Mathlib

set_option maxRecDepth 100000

/-!
Verification development for the cryptomus client library (src/lib.rs).

The Rust code is shallowly embedded below. Pure helpers become Lean
functions; the HTTP layer is abstracted as a transport argument whose
outcome records the HTTP status and the parse results of the body, and
run-time panics (Option unwrap on None) are made explicit in an
ExecResult type. External collaborators (the md5 crate, the base64
crate, serde_json) are modelled by concrete Lean implementations of the
standard algorithms they implement (RFC 1321 MD5, RFC 4648 base64 with
the standard alphabet and padding, JSON rendering with serde field
rules). Machine integers are Nat with explicit reduction mod 2^32.
-/

/-! ### Bytes of a string (model of Rust str::as_bytes, UTF-8) -/

/-- UTF-8 encoding of a single code point, as bytes. -/
def utf8Bytes (c : Nat) : List Nat :=
  if c < 0x80 then [c]
  else if c < 0x800 then [0xC0 + c / 64, 0x80 + c % 64]
  else if c < 0x10000 then [0xE0 + c / 4096, 0x80 + c / 64 % 64, 0x80 + c % 64]
  else [0xF0 + c / 262144, 0x80 + c / 4096 % 64, 0x80 + c / 64 % 64, 0x80 + c % 64]

/-- Byte sequence of a string, as Rust as_bytes yields it (UTF-8). -/
def strBytes (s : String) : List Nat :=
  (s.data.map (fun c => utf8Bytes c.toNat)).flatten

/-! ### Base64, standard alphabet with padding
(model of the external base64 crate, engine general_purpose::STANDARD) -/

/-- The standard base64 alphabet. -/
def base64Alphabet : List Char :=
  "ABCDEFGHIJKLMNOPQRSTUVWXYZabcdefghijklmnopqrstuvwxyz0123456789+/".data

/-- Character for one 6-bit group. -/
def b64Char (n : Nat) : Char := base64Alphabet.getD n 'A'

/-- Base64 encoding of a byte list, standard alphabet, with padding. -/
def base64Encode : List Nat → List Char
  | [] => []
  | [b1] => [b64Char (b1 / 4), b64Char (b1 % 4 * 16), '=', '=']
  | [b1, b2] => [b64Char (b1 / 4), b64Char (b1 % 4 * 16 + b2 / 16), b64Char (b2 % 16 * 4), '=']
  | b1 :: b2 :: b3 :: rest =>
      b64Char (b1 / 4) :: b64Char (b1 % 4 * 16 + b2 / 16) ::
      b64Char (b2 % 16 * 4 + b3 / 64) :: b64Char (b3 % 64) :: base64Encode rest

/-! ### MD5 (model of the external md5 crate, RFC 1321) -/

/-- Per-round shift amounts. -/
def md5S : List Nat :=
  [7, 12, 17, 22, 7, 12, 17, 22, 7, 12, 17, 22, 7, 12, 17, 22,
   5, 9, 14, 20, 5, 9, 14, 20, 5, 9, 14, 20, 5, 9, 14, 20,
   4, 11, 16, 23, 4, 11, 16, 23, 4, 11, 16, 23, 4, 11, 16, 23,
   6, 10, 15, 21, 6, 10, 15, 21, 6, 10, 15, 21, 6, 10, 15, 21]

/-- Per-round additive constants, floor of 2^32 times abs (sin (i+1)). -/
def md5K : List Nat :=
  [0xd76aa478, 0xe8c7b756, 0x242070db, 0xc1bdceee,
   0xf57c0faf, 0x4787c62a, 0xa8304613, 0xfd469501,
   0x698098d8, 0x8b44f7af, 0xffff5bb1, 0x895cd7be,
   0x6b901122, 0xfd987193, 0xa679438e, 0x49b40821,
   0xf61e2562, 0xc040b340, 0x265e5a51, 0xe9b6c7aa,
   0xd62f105d, 0x02441453, 0xd8a1e681, 0xe7d3fbc8,
   0x21e1cde6, 0xc33707d6, 0xf4d50d87, 0x455a14ed,
   0xa9e3e905, 0xfcefa3f8, 0x676f02d9, 0x8d2a4c8a,
   0xfffa3942, 0x8771f681, 0x6d9d6122, 0xfde5380c,
   0xa4beea44, 0x4bdecfa9, 0xf6bb4b60, 0xbebfbc70,
   0x289b7ec6, 0xeaa127fa, 0xd4ef3085, 0x04881d05,
   0xd9d4d039, 0xe6db99e5, 0x1fa27cf8, 0xc4ac5665,
   0xf4292244, 0x432aff97, 0xab9423a7, 0xfc93a039,
   0x655b59c3, 0x8f0ccc92, 0xffeff47d, 0x85845dd1,
   0x6fa87e4f, 0xfe2ce6e0, 0xa3014314, 0x4e0811a1,
   0xf7537e82, 0xbd3af235, 0x2ad7d2bb, 0xeb86d391]

/-- Bitwise NOT on a 32-bit word. -/
def not32 (x : Nat) : Nat := Nat.xor 0xffffffff x

/-- Left rotation of a 32-bit word by s places. -/
def rotl32 (x s : Nat) : Nat := (x * 2 ^ s + x / 2 ^ (32 - s)) % 2 ^ 32

/-- Round mixing function, chosen by the round index. -/
def md5F (i b c d : Nat) : Nat :=
  if i < 16 then Nat.lor (Nat.land b c) (Nat.land (not32 b) d)
  else if i < 32 then Nat.lor (Nat.land d b) (Nat.land (not32 d) c)
  else if i < 48 then Nat.xor b (Nat.xor c d)
  else Nat.xor c (Nat.lor b (not32 d))

/-- Message word index used in round i. -/
def md5G (i : Nat) : Nat :=
  if i < 16 then i
  else if i < 32 then (5 * i + 1) % 16
  else if i < 48 then (3 * i + 5) % 16
  else 7 * i % 16

/-- One MD5 round on the four-word state. -/
def md5Round (m : Nat → Nat) (st : Nat × Nat × Nat × Nat) (i : Nat) :
    Nat × Nat × Nat × Nat :=
  let a := st.1
  let b := st.2.1
  let c := st.2.2.1
  let d := st.2.2.2
  let tmp := (a + md5F i b c d + md5K.getD i 0 + m (md5G i)) % 2 ^ 32
  (d, (b + rotl32 tmp (md5S.getD i 0)) % 2 ^ 32, b, c)

/-- Process one 64-byte block. -/
def md5ProcessBlock (st : Nat × Nat × Nat × Nat) (block : List Nat) :
    Nat × Nat × Nat × Nat :=
  let m := fun g => block.getD (4 * g) 0 + block.getD (4 * g + 1) 0 * 256 +
    block.getD (4 * g + 2) 0 * 65536 + block.getD (4 * g + 3) 0 * 16777216
  let fin := (List.range 64).foldl (md5Round m) st
  ((st.1 + fin.1) % 2 ^ 32, (st.2.1 + fin.2.1) % 2 ^ 32,
   (st.2.2.1 + fin.2.2.1) % 2 ^ 32, (st.2.2.2 + fin.2.2.2) % 2 ^ 32)

/-- Little-endian bytes of a 64-bit length field. -/
def toBytes64LE (n : Nat) : List Nat :=
  [n % 256, n / 2 ^ 8 % 256, n / 2 ^ 16 % 256, n / 2 ^ 24 % 256,
   n / 2 ^ 32 % 256, n / 2 ^ 40 % 256, n / 2 ^ 48 % 256, n / 2 ^ 56 % 256]

/-- MD5 padding: a 1 bit, zeros to 56 mod 64, then the bit length. -/
def md5Pad (msg : List Nat) : List Nat :=
  let len := msg.length
  let zeros := (120 - (len + 1) % 64) % 64
  msg ++ 0x80 :: List.replicate zeros 0 ++ toBytes64LE (len * 8 % 2 ^ 64)

/-- Fuel-driven block splitter. Each step consumes at least one byte, so
a fuel of the list length always suffices; the recursion is structural
on the fuel so that the kernel can evaluate it. -/
def chunks64Go : Nat → List Nat → List (List Nat)
  | _, [] => []
  | 0, _ :: _ => []
  | fuel + 1, b :: rest => ((b :: rest).take 64) :: chunks64Go fuel ((b :: rest).drop 64)

/-- Split a byte list into blocks of 64. -/
def chunks64 (l : List Nat) : List (List Nat) := chunks64Go l.length l

/-- Little-endian bytes of one 32-bit state word. -/
def toBytesLE (w : Nat) : List Nat :=
  [w % 256, w / 256 % 256, w / 65536 % 256, w / 16777216 % 256]

/-- MD5 digest of a byte list: sixteen bytes. -/
def md5 (msg : List Nat) : List Nat :=
  let fin := (chunks64 (md5Pad msg)).foldl md5ProcessBlock
    (0x67452301, 0xefcdab89, 0x98badcfe, 0x10325476)
  toBytesLE fin.1 ++ toBytesLE fin.2.1 ++ toBytesLE fin.2.2.1 ++ toBytesLE fin.2.2.2

/-! ### Lowercase hex rendering (model of Rust formatting with x on the digest) -/

/-- Lowercase hex digit for a value below 16. -/
def hexDigit (n : Nat) : Char := "0123456789abcdef".data.getD n '0'

/-- Two lowercase hex characters for one byte. -/
def hexByte (b : Nat) : List Char := [hexDigit (b / 16), hexDigit (b % 16)]

/-- Lowercase hex string of a byte list. -/
def hexLower (bytes : List Nat) : String := String.mk ((bytes.map hexByte).flatten)

/-! ### The error type and the signature generator (lib.rs lines 11 to 24) -/

/-- Model of CryptomusError, the boxed dynamic error. A value built by
calling into on a string literal or a String keeps just that message; a
serde_json error propagated by the question mark operator is a distinct
concrete type whose message the model does not re-specify. -/
inductive CryptomusError where
  | boxedStr (s : String)
  | serdeJson
deriving DecidableEq, Repr

/-- Embedding of generate_signature: reject an empty api key, base64 the
payload bytes, append the key, MD5, render lowercase hex. -/
def generate_signature (payload_str api_key : String) :
    Except CryptomusError String :=
  if api_key.isEmpty then .error (.boxedStr "missing api key")
  else
    let encoded_payload := String.mk (base64Encode (strBytes payload_str))
    let data_to_sign := encoded_payload ++ api_key
    .ok (hexLower (md5 (strBytes data_to_sign)))

/-! ### JSON values and rendering (model of serde_json serialization) -/

/-- A JSON value as the serde data model presents it. -/
inductive JsonVal where
  | null
  | jbool (b : Bool)
  | jint (n : Int)
  | jfloat (x : Float)
  | jstr (s : String)
  | jarr (elems : List JsonVal)
  | jobj (members : List (String × JsonVal))

/-- Escape of one character inside a JSON string, as serde_json emits it. -/
def jsonEscapeChar (c : Char) : String :=
  if c = '"' then "\\\""
  else if c = '\\' then "\\\\"
  else if c = '\n' then "\\n"
  else if c = '\r' then "\\r"
  else if c = '\t' then "\\t"
  else if c.toNat = 8 then "\\b"
  else if c.toNat = 12 then "\\f"
  else if c.toNat < 32 then
    "\\u00" ++ String.mk [hexDigit (c.toNat / 16), hexDigit (c.toNat % 16)]
  else String.singleton c

/-- JSON string literal for s, quotes included. -/
def jsonStr (s : String) : String :=
  "\"" ++ String.join (s.data.map jsonEscapeChar) ++ "\""

/-- Comma-separated concatenation, as compact JSON puts list items. -/
def commaJoin : List String → String
  | [] => ""
  | [x] => x
  | x :: y :: xs => x ++ "," ++ commaJoin (y :: xs)

/-- Compact JSON text of a value, as serde_json::to_string produces it,
with a fuel bounding the nesting depth so that the recursion is
structural and the kernel can evaluate it. The rendering of a float is a
stand-in: no claim depends on the numeric formatting of the external
serializer. -/
def renderJsonDepth : Nat → JsonVal → String
  | _, .null => "null"
  | _, .jbool b => if b then "true" else "false"
  | _, .jint n => toString n
  | _, .jfloat x => toString x
  | _, .jstr s => jsonStr s
  | 0, .jarr _ => ""
  | fuel + 1, .jarr l => "[" ++ commaJoin (l.map (renderJsonDepth fuel)) ++ "]"
  | 0, .jobj _ => ""
  | fuel + 1, .jobj l =>
      "\x7b" ++
        commaJoin (l.map (fun kv => jsonStr kv.1 ++ ":" ++ renderJsonDepth fuel kv.2)) ++
      "\x7d"

/-- Compact JSON text of a request value. The request types nest at most
an object holding arrays of flat objects, so a fuel of 8 is never
exhausted on them. -/
def renderJson (j : JsonVal) : String := renderJsonDepth 8 j

/-- Members contributed by one field marked skip_serializing_if Option
is_none: nothing when absent, one member when present. -/
def optMember (key : String) (v : Option JsonVal) : List (String × JsonVal) :=
  match v with
  | none => []
  | some j => [(key, j)]

/-! ### Request structures (lib.rs lines 31 to 85) -/

/-- Embedding of CurrencyNetwork. -/
structure CurrencyNetwork where
  currency : String
  network : Option String

/-- Embedding of CreateInvoiceRequest, fields in declaration order. -/
structure CreateInvoiceRequest where
  amount : String
  currency : String
  order_id : String
  network : Option String
  url_return : Option String
  url_success : Option String
  url_callback : Option String
  is_payment_multiple : Option Bool
  lifetime : Option Int
  to_currency : Option String
  subtract : Option Int
  accuracy_payment_percent : Option Float
  additional_data : Option String
  currencies : Option (List CurrencyNetwork)
  except_currencies : Option (List CurrencyNetwork)
  course_source : Option String
  from_referral_code : Option String
  discount_percent : Option Int
  is_refresh : Option Bool

/-- Embedding of InvoiceInfoRequest. -/
structure InvoiceInfoRequest where
  uuid : Option String
  order_id : Option String

/-- Serde object members of a CurrencyNetwork: currency always, network
only when set. -/
def currencyNetworkMembers (c : CurrencyNetwork) : List (String × JsonVal) :=
  [("currency", .jstr c.currency)] ++ optMember "network" (c.network.map .jstr)

/-- Serde object members of a CreateInvoiceRequest: the three required
fields in declaration order, then every optional field only when set
(skip_serializing_if Option is_none on each). -/
def createInvoiceMembers (r : CreateInvoiceRequest) : List (String × JsonVal) :=
  [("amount", .jstr r.amount), ("currency", .jstr r.currency),
   ("order_id", .jstr r.order_id)] ++
  optMember "network" (r.network.map .jstr) ++
  optMember "url_return" (r.url_return.map .jstr) ++
  optMember "url_success" (r.url_success.map .jstr) ++
  optMember "url_callback" (r.url_callback.map .jstr) ++
  optMember "is_payment_multiple" (r.is_payment_multiple.map .jbool) ++
  optMember "lifetime" (r.lifetime.map .jint) ++
  optMember "to_currency" (r.to_currency.map .jstr) ++
  optMember "subtract" (r.subtract.map .jint) ++
  optMember "accuracy_payment_percent" (r.accuracy_payment_percent.map .jfloat) ++
  optMember "additional_data" (r.additional_data.map .jstr) ++
  optMember "currencies"
    (r.currencies.map (fun l => .jarr (l.map (fun c => .jobj (currencyNetworkMembers c))))) ++
  optMember "except_currencies"
    (r.except_currencies.map (fun l => .jarr (l.map (fun c => .jobj (currencyNetworkMembers c))))) ++
  optMember "course_source" (r.course_source.map .jstr) ++
  optMember "from_referral_code" (r.from_referral_code.map .jstr) ++
  optMember "discount_percent" (r.discount_percent.map .jint) ++
  optMember "is_refresh" (r.is_refresh.map .jbool)

/-- Serde object members of an InvoiceInfoRequest: both fields optional. -/
def invoiceInfoMembers (r : InvoiceInfoRequest) : List (String × JsonVal) :=
  optMember "uuid" (r.uuid.map .jstr) ++ optMember "order_id" (r.order_id.map .jstr)

/-- JSON text sent for a CreateInvoiceRequest. -/
def serializeCreateInvoiceRequest (r : CreateInvoiceRequest) : String :=
  renderJson (.jobj (createInvoiceMembers r))

/-- JSON text sent for an InvoiceInfoRequest. -/
def serializeInvoiceInfoRequest (r : InvoiceInfoRequest) : String :=
  renderJson (.jobj (invoiceInfoMembers r))

/-! ### Response envelope (lib.rs lines 90 to 100) -/

/-- Embedding of GenericCryptomusResponse, the success or error wrapper.
The errors field carries free-form validation detail. -/
structure GenericCryptomusResponse (R : Type) where
  state : Int
  result : Option R
  message : Option String
  errors : Option JsonVal

/-! ### Payment status (lib.rs lines 103 to 123) -/

/-- Embedding of PaymentStatus. -/
inductive PaymentStatus where
  | Paid
  | PaidOver
  | WrongAmount
  | Process
  | ConfirmCheck
  | WrongAmountWaiting
  | Check
  | Fail
  | Cancel
  | SystemFail
  | RefundProcess
  | RefundFail
  | RefundPaid
  | Locked
  | Unknown
deriving DecidableEq, Repr

/-- The snake_case wire labels of the named variants, in declaration
order, as the serde rename_all attribute derives them. -/
def paymentStatusLabels : List String :=
  ["paid", "paid_over", "wrong_amount", "process", "confirm_check",
   "wrong_amount_waiting", "check", "fail", "cancel", "system_fail",
   "refund_process", "refund_fail", "refund_paid", "locked"]

/-- Model of the derived Deserialize for PaymentStatus: each snake_case
label decodes to its variant, and the serde other attribute sends every
unrecognized string to Unknown instead of failing. -/
def paymentStatusFromString (s : String) : PaymentStatus :=
  if s = "paid" then .Paid
  else if s = "paid_over" then .PaidOver
  else if s = "wrong_amount" then .WrongAmount
  else if s = "process" then .Process
  else if s = "confirm_check" then .ConfirmCheck
  else if s = "wrong_amount_waiting" then .WrongAmountWaiting
  else if s = "check" then .Check
  else if s = "fail" then .Fail
  else if s = "cancel" then .Cancel
  else if s = "system_fail" then .SystemFail
  else if s = "refund_process" then .RefundProcess
  else if s = "refund_fail" then .RefundFail
  else if s = "refund_paid" then .RefundPaid
  else if s = "locked" then .Locked
  else .Unknown

/-! ### Invoice response and its field normalization (lib.rs lines 138 to 184) -/

/-- Embedding of deserialize_optional_string: a value that arrived as
null stays absent, and a present string is kept only when non-empty. -/
def deserialize_optional_string (s : Option String) : Option String :=
  s.filter (fun val => !val.isEmpty)

/-- Wire-level content of one invoice object inside a success envelope,
as serde presents it before the field attributes are applied: nullable
fields are Option values (null gives none) and the two status fields are
the raw wire strings. The field named from on the wire is from_addr
here, since from is a reserved word in Lean. -/
structure RawInvoice where
  uuid : String
  order_id : String
  amount : String
  payment_amount : Option String
  payer_amount : Option String
  discount_percent : Option Int
  discount : Option String
  payer_currency : Option String
  currency : String
  merchant_amount : Option String
  network : Option String
  address : Option String
  from_addr : Option String
  txid : Option String
  payment_status : String
  url : String
  expired_at : Int
  status_alias : String
  is_final : Bool
  additional_data : Option String
  created_at : String
  updated_at : String
  comments : Option String

/-- Embedding of InvoiceResponse, the decoded invoice entity. -/
structure InvoiceResponse where
  uuid : String
  order_id : String
  amount : String
  payment_amount : Option String
  payer_amount : Option String
  discount_percent : Option Int
  discount : Option String
  payer_currency : Option String
  currency : String
  merchant_amount : Option String
  network : Option String
  address : Option String
  from_addr : Option String
  txid : Option String
  payment_status : PaymentStatus
  url : String
  expired_at : Int
  status_alias : PaymentStatus
  is_final : Bool
  additional_data : Option String
  created_at : String
  updated_at : String
  comments : Option String
deriving DecidableEq, Repr

/-- Decoding of one raw invoice into the InvoiceResponse entity: plain
fields are taken as they are, every field marked deserialize_with
deserialize_optional_string is normalized by it, and the status strings
are decoded by the derived PaymentStatus deserializer (the status_alias
field reads the wire key status through the serde alias attribute). -/
def decodeInvoice (r : RawInvoice) : InvoiceResponse where
  uuid := r.uuid
  order_id := r.order_id
  amount := r.amount
  payment_amount := deserialize_optional_string r.payment_amount
  payer_amount := deserialize_optional_string r.payer_amount
  discount_percent := r.discount_percent
  discount := deserialize_optional_string r.discount
  payer_currency := deserialize_optional_string r.payer_currency
  currency := r.currency
  merchant_amount := deserialize_optional_string r.merchant_amount
  network := deserialize_optional_string r.network
  address := deserialize_optional_string r.address
  from_addr := deserialize_optional_string r.from_addr
  txid := deserialize_optional_string r.txid
  payment_status := paymentStatusFromString r.payment_status
  url := r.url
  expired_at := r.expired_at
  status_alias := paymentStatusFromString r.status_alias
  is_final := r.is_final
  additional_data := deserialize_optional_string r.additional_data
  created_at := r.created_at
  updated_at := r.updated_at
  comments := deserialize_optional_string r.comments

/-! ### The client request path (lib.rs lines 224 to 308) -/

/-- Run-time outcome of one client call: a typed value, an error surfaced
to the caller, or a Rust panic (Option unwrap on a None value). -/
inductive ExecResult (R : Type) where
  | ok (r : R)
  | err (e : CryptomusError)
  | panicked (msg : String)
deriving DecidableEq, Repr

/-- What one HTTP round trip gives back, with the work of the external
HTTP and JSON libraries already performed: the status success flag,
the body text, and the outcomes of the two parse attempts the code can
make on that body (as an envelope with unit result on the error-status
path, as an envelope with typed result on the success-status path);
none stands for a serde_json parse failure. -/
structure TransportOutcome (R : Type) where
  status_ok : Bool
  raw_text : String
  parsed_unit : Option (GenericCryptomusResponse Unit)
  parsed_typed : Option (GenericCryptomusResponse R)

/-- Embedding of the response half of send_request (lib.rs lines 249 to
279). On a non-success status: a parseable envelope gives unwrap of its
message (a panic when the message is absent), an unparseable body gives
the raw text as the error. On a success status: a parse failure
propagates the serde_json error; state 0 without result gives the fixed
boxed string dfdf; state 0 with a result succeeds; any other state gives
unwrap of the message (a panic when the message is absent). -/
def handle_response {R : Type} (out : TransportOutcome R) : ExecResult R :=
  if out.status_ok = false then
    match out.parsed_unit with
    | some err_resp =>
        match err_resp.message with
        | some m => .err (.boxedStr m)
        | none => .panicked "called Option::unwrap on a None value"
    | none => .err (.boxedStr out.raw_text)
  else
    match out.parsed_typed with
    | none => .err .serdeJson
    | some parsed_response =>
        if parsed_response.state = 0 then
          match parsed_response.result with
          | none => .err (.boxedStr "dfdf")
          | some f => .ok f
        else
          match parsed_response.message with
          | some m => .err (.boxedStr m)
          | none => .panicked "called Option::unwrap on a None value"

/-- Embedding of send_request: serialize the payload, sign the exact
serialized text with the stored key (an error here is returned before
any network activity), then invoke the transport once on the endpoint
and that text and interpret the outcome. The second component counts
the transport invocations. -/
def send_request {A R : Type} (api_key : String) (serialize : A → String)
    (endpoint : String) (payload : A)
    (transport : String → String → TransportOutcome R) : ExecResult R × Nat :=
  let payload_str := serialize payload
  match generate_signature payload_str api_key with
  | .error e => (.err e, 0)
  | .ok _sign => (handle_response (transport endpoint payload_str), 1)

/-- Embedding of create_invoice: send_request on the payment endpoint. -/
def create_invoice (api_key : String) (request : CreateInvoiceRequest)
    (transport : String → String → TransportOutcome InvoiceResponse) :
    ExecResult InvoiceResponse × Nat :=
  send_request api_key serializeCreateInvoiceRequest "payment" request transport

/-- Embedding of get_invoice_info: fail at once when neither uuid nor
order_id is set, else send_request on the payment info endpoint. -/
def get_invoice_info (api_key : String) (request : InvoiceInfoRequest)
    (transport : String → String → TransportOutcome InvoiceResponse) :
    ExecResult InvoiceResponse × Nat :=
  if request.uuid = none ∧ request.order_id = none then
    (.err (.boxedStr "Необходимо указать uuid или order_id"), 0)
  else
    send_request api_key serializeInvoiceInfoRequest "payment/info" request transport

/-! ### Example values used by the witnesses -/

/-- A concrete raw invoice mixing absent, empty and non-empty optional
fields, used to instantiate the decoding theorems. -/
def rawInvoiceExample : RawInvoice where
  uuid := "8b03432e-385b-4670-8d06-064591096795"
  order_id := "order-1"
  amount := "10.00"
  payment_amount := some ""
  payer_amount := none
  discount_percent := some 0
  discount := some "0.00"
  payer_currency := some "USDT"
  currency := "USD"
  merchant_amount := none
  network := some "tron"
  address := some ""
  from_addr := none
  txid := some "0xabc"
  payment_status := "paid_over"
  url := "https://pay.cryptomus.com/pay/x"
  expired_at := 1689098266
  status_alias := "paid_over"
  is_final := true
  additional_data := some ""
  created_at := "2023-07-11 17:45:19"
  updated_at := "2023-07-11 17:45:19"
  comments := none

/-! ### Shared lemmas -/

/-- A getD value satisfies any property that holds of every list element
and of the default. -/
theorem getD_sat {α : Type} (P : α → Prop) :
    ∀ (l : List α) (n : Nat) (d : α), (∀ x ∈ l, P x) → P d → P (l.getD n d)
  | [], n, d, _, hd => by simpa using hd
  | x :: _, 0, _, h, _ => by simpa using h x (by simp)
  | _ :: xs, n + 1, d, h, hd => by
      simpa using getD_sat P xs n d (fun y hy => h y (by simp [hy])) hd

/-- Every base64 output character is ASCII. -/
theorem b64Char_ascii (n : Nat) : (b64Char n).toNat < 128 :=
  getD_sat (fun c => c.toNat < 128) base64Alphabet n 'A' (by decide) (by decide)

/-- Every character of a base64 encoding is ASCII. -/
theorem base64Encode_ascii : ∀ (l : List Nat), ∀ c ∈ base64Encode l, c.toNat < 128
  | [] => by simp [base64Encode]
  | [b1] => by
      intro c hc
      simp only [base64Encode, List.mem_cons, List.not_mem_nil, or_false] at hc
      rcases hc with rfl | rfl | rfl | rfl <;> first | exact b64Char_ascii _ | decide
  | [b1, b2] => by
      intro c hc
      simp only [base64Encode, List.mem_cons, List.not_mem_nil, or_false] at hc
      rcases hc with rfl | rfl | rfl | rfl <;> first | exact b64Char_ascii _ | decide
  | b1 :: b2 :: b3 :: rest => by
      intro c hc
      simp only [base64Encode, List.mem_cons] at hc
      rcases hc with rfl | rfl | rfl | rfl | h
      · exact b64Char_ascii _
      · exact b64Char_ascii _
      · exact b64Char_ascii _
      · exact b64Char_ascii _
      · exact base64Encode_ascii rest c h

/-- UTF-8 leaves a list of ASCII characters byte for byte. -/
theorem strBytes_ascii :
    ∀ (cs : List Char), (∀ c ∈ cs, c.toNat < 128) →
      strBytes (String.mk cs) = cs.map Char.toNat
  | [], _ => rfl
  | c :: cs, h => by
      have hc : c.toNat < 128 := h c (by simp)
      have ih := strBytes_ascii cs (fun x hx => h x (by simp [hx]))
      simp only [strBytes] at ih ⊢
      simp only [List.map_cons, List.flatten_cons, ih]
      simp [utf8Bytes, hc]

/-- String append concatenates the byte sequences. -/
theorem strBytes_append (s t : String) :
    strBytes (s ++ t) = strBytes s ++ strBytes t := by
  simp [strBytes, String.data_append]

/-- An empty check that is false exactly on non-empty strings. -/
theorem isEmpty_false_of_ne (k : String) (hk : k ≠ "") : k.isEmpty = false := by
  cases hE : k.isEmpty with
  | false => rfl
  | true => exact absurd ((String.isEmpty_iff k).mp hE) hk

/-- An MD5 digest has sixteen bytes. -/
theorem md5_length (msg : List Nat) : (md5 msg).length = 16 := by
  simp [md5, toBytesLE]

/-- Hex rendering lengths: two characters per byte. -/
theorem hexFlatten_length : ∀ (l : List Nat), ((l.map hexByte).flatten).length = 2 * l.length
  | [] => rfl
  | b :: bs => by
      simp only [List.map_cons, List.flatten_cons, List.length_append,
        hexFlatten_length bs, hexByte]
      simp
      omega

/-- Length of the hex string of a byte list. -/
theorem hexLower_length (l : List Nat) : (hexLower l).length = 2 * l.length := by
  simp only [hexLower, String.length_mk]
  exact hexFlatten_length l

/-- Every hex digit character is a lowercase hex character. -/
theorem hexDigit_mem (n : Nat) : hexDigit n ∈ "0123456789abcdef".data :=
  getD_sat (fun c => c ∈ "0123456789abcdef".data) _ n '0' (fun _ hx => hx) (by decide)

/-- Every character of a hex rendering is a lowercase hex character. -/
theorem hexLower_chars (l : List Nat) :
    ∀ c ∈ (hexLower l).data, c ∈ "0123456789abcdef".data := by
  intro c hc
  simp only [hexLower] at hc
  rw [List.mem_flatten] at hc
  obtain ⟨sub, hsub, hcsub⟩ := hc
  rw [List.mem_map] at hsub
  obtain ⟨b, _, rfl⟩ := hsub
  simp only [hexByte, List.mem_cons, List.mem_singleton] at hcsub
  rcases hcsub with rfl | rfl | h
  · exact hexDigit_mem _
  · exact hexDigit_mem _
  · exact absurd h (by simp)

/-! ### Claim C1 -/

/-- Stated from the claim wording, independently of the code path: the
lowercase hexadecimal rendering of the MD5 digest of the byte string
formed by base64-encoding the bytes of the payload and then appending
the key as a suffix with no separator. -/
def signature_per_spec (p k : String) : String :=
  hexLower (md5 ((base64Encode (strBytes p)).map Char.toNat ++ strBytes k))

/-- C1: for every payload string and every non-empty secret key, the
signature generator returns exactly the lowercase hex MD5 digest of the
base64 encoding of the payload bytes with the key appended as a suffix,
no separator. -/
theorem generate_signature_matches_spec (p k : String) (hk : k ≠ "") :
    generate_signature p k = .ok (signature_per_spec p k) := by
  unfold generate_signature
  rw [isEmpty_false_of_ne k hk]
  simp only [Bool.false_eq_true, if_false, signature_per_spec]
  congr 2
  rw [strBytes_append, strBytes_ascii (base64Encode (strBytes p)) (base64Encode_ascii _)]

/-- Witness for C1 at a concrete payload and key. -/
theorem generate_signature_matches_spec_witness :
    generate_signature "hello" "key" = .ok (signature_per_spec "hello" "key") ∧
    signature_per_spec "hello" "key" = "14147e776edc357e20655de463bce5e4" :=
  ⟨generate_signature_matches_spec "hello" "key" (by decide), by decide⟩

/-! ### Claim C2 -/

/-- C2: the signature generator fails with the missing-credential error
exactly when the key is empty, for every payload including the empty
one; and with a non-empty key the empty payload is still signed, the
data to digest being base64 of no bytes followed by the key, that is the
key alone. -/
theorem generate_signature_missing_key_iff (p k : String) :
    (generate_signature p k = .error (.boxedStr "missing api key") ↔ k = "") ∧
    (k ≠ "" → generate_signature "" k = .ok (hexLower (md5 (strBytes k)))) := by
  constructor
  · constructor
    · intro h
      by_contra hk
      rw [generate_signature, isEmpty_false_of_ne k hk] at h
      simp at h
    · intro h
      subst h
      rfl
  · intro hk
    rw [generate_signature, isEmpty_false_of_ne k hk]
    rfl

/-- Witness for C2: the empty payload with key key signs to the MD5 of
the key alone, evaluated to its concrete hex value. -/
theorem generate_signature_missing_key_iff_witness :
    generate_signature "" "key" = .ok (hexLower (md5 (strBytes "key"))) ∧
    hexLower (md5 (strBytes "key")) = "3c6e0b8a9c15224a8228b9a98ca1531d" ∧
    generate_signature "" "" = .error (.boxedStr "missing api key") :=
  ⟨(generate_signature_missing_key_iff "" "key").2 (by decide), by decide,
   (generate_signature_missing_key_iff "" "").1.mpr rfl⟩

/-! ### Claim C3 -/

/-- C3: with a non-empty key the signature generator is a pure function,
so two runs on the same inputs agree, and its value is a 32-character
string of lowercase hexadecimal characters; recomputing on the same
serialized bytes gives the identical string. -/
theorem generate_signature_deterministic_hex (p k : String) (hk : k ≠ "") :
    ∃ s, generate_signature p k = .ok s ∧ s.length = 32 ∧
      (∀ c ∈ s.data, c ∈ "0123456789abcdef".data) ∧
      generate_signature p k = generate_signature p k := by
  refine ⟨hexLower (md5 (strBytes (String.mk (base64Encode (strBytes p)) ++ k))),
    ?_, ?_, hexLower_chars _, rfl⟩
  · rw [generate_signature, isEmpty_false_of_ne k hk]
    rfl
  · rw [hexLower_length, md5_length]

/-- Witness for C3 at a concrete payload and key. -/
theorem generate_signature_deterministic_hex_witness :
    ∃ s, generate_signature "abc" "k1" = .ok s ∧ s.length = 32 ∧
      (∀ c ∈ s.data, c ∈ "0123456789abcdef".data) ∧
      generate_signature "abc" "k1" = generate_signature "abc" "k1" :=
  generate_signature_deterministic_hex "abc" "k1" (by decide)

/-! ### Claim C4 -/

/-- C4: a CreateInvoiceRequest with every optional field unset
serializes to the JSON object holding exactly the members amount,
currency and order_id, with no member for any unset field and no null
value; and an InvoiceInfoRequest with both fields unset serializes to
the empty object. -/
theorem serialize_requests_omit_unset_optionals (a c o : String) :
    (createInvoiceMembers
        ⟨a, c, o, none, none, none, none, none, none, none, none, none, none,
          none, none, none, none, none, none⟩).map Prod.fst =
      ["amount", "currency", "order_id"] ∧
    (∀ kv ∈ createInvoiceMembers
        ⟨a, c, o, none, none, none, none, none, none, none, none, none, none,
          none, none, none, none, none, none⟩, kv.2 ≠ JsonVal.null) ∧
    serializeCreateInvoiceRequest
        ⟨a, c, o, none, none, none, none, none, none, none, none, none, none,
          none, none, none, none, none, none⟩ =
      renderJson (.jobj [("amount", .jstr a), ("currency", .jstr c),
        ("order_id", .jstr o)]) ∧
    invoiceInfoMembers ⟨none, none⟩ = [] ∧
    serializeInvoiceInfoRequest ⟨none, none⟩ = "\x7b\x7d" := by
  have hm : createInvoiceMembers
      ⟨a, c, o, none, none, none, none, none, none, none, none, none, none,
        none, none, none, none, none, none⟩ =
      [("amount", .jstr a), ("currency", .jstr c), ("order_id", .jstr o)] := by
    simp [createInvoiceMembers, optMember]
  refine ⟨by rw [hm]; simp, ?_, by rw [serializeCreateInvoiceRequest, hm], rfl, rfl⟩
  intro kv hkv
  rw [hm] at hkv
  simp only [List.mem_cons, List.not_mem_nil, or_false] at hkv
  rcases hkv with rfl | rfl | rfl <;> simp

/-! ### Claim C5 -/

/-- C5: with both uuid and order_id unset, get_invoice_info returns the
invalid-argument error paired with a transport invocation count of zero,
so no serialization, signing or network call happened; with at least one
of the two set, the guard passes and the call proceeds as the plain
send_request on the payment info endpoint. -/
theorem get_invoice_info_guard (key : String) (req : InvoiceInfoRequest)
    (transport : String → String → TransportOutcome InvoiceResponse) :
    (req.uuid = none → req.order_id = none →
      get_invoice_info key req transport =
        (.err (.boxedStr "Необходимо указать uuid или order_id"), 0)) ∧
    (req.uuid ≠ none ∨ req.order_id ≠ none →
      get_invoice_info key req transport =
        send_request key serializeInvoiceInfoRequest "payment/info" req transport) := by
  constructor
  · intro h1 h2
    rw [get_invoice_info, if_pos ⟨h1, h2⟩]
  · intro h
    rw [get_invoice_info, if_neg]
    rintro ⟨h1, h2⟩
    rcases h with h | h
    · exact h h1
    · exact h h2

/-- Witness for C5: a recording stub transport sees zero invocations on
the guarded failure; with a uuid set the call reaches the transport
exactly once. -/
theorem get_invoice_info_guard_witness :
    get_invoice_info "key" ⟨none, none⟩ (fun _ _ => ⟨true, "", none, none⟩) =
      (.err (.boxedStr "Необходимо указать uuid или order_id"), 0) ∧
    get_invoice_info "key" ⟨some "u-1", none⟩ (fun _ _ => ⟨true, "", none, none⟩) =
      send_request "key" serializeInvoiceInfoRequest "payment/info" ⟨some "u-1", none⟩
        (fun _ _ => ⟨true, "", none, none⟩) ∧
    (get_invoice_info "key" ⟨some "u-1", none⟩ (fun _ _ => ⟨true, "", none, none⟩)).2 = 1 :=
  ⟨(get_invoice_info_guard "key" ⟨none, none⟩ _).1 rfl rfl,
   (get_invoice_info_guard "key" ⟨some "u-1", none⟩ _).2 (Or.inl (by simp)),
   by decide⟩

/-! ### Claim C6 -/

/-- C6 counterexample: on a success status, a state-0 envelope with the
result absent makes the handler return the boxed message string dfdf,
the very same error value an error envelope carrying message dfdf
yields; the failure is therefore a generic message string and not a
distinct protocol-violation error kind. -/
theorem handle_missing_result_same_as_message_dfdf :
    handle_response (R := InvoiceResponse)
        ⟨true, "\x7b\"state\":0\x7d", none, some ⟨0, none, none, none⟩⟩ =
      .err (.boxedStr "dfdf") ∧
    handle_response (R := InvoiceResponse)
        ⟨true, "", none, some ⟨1, none, some "dfdf", none⟩⟩ =
      .err (.boxedStr "dfdf") :=
  ⟨rfl, rfl⟩

/-- C6 (amended): for every 2xx response parsed as an envelope whose
state is 0 and whose result is absent, the handler fails, never
succeeds, and the error is the fixed boxed message string dfdf: distinct
from the parse-error path, but a generic message string rather than a
distinct protocol-violation error kind. -/
theorem handle_response_success_without_result {R : Type}
    (env : GenericCryptomusResponse R) (raw : String)
    (pu : Option (GenericCryptomusResponse Unit))
    (h0 : env.state = 0) (hr : env.result = none) :
    handle_response ⟨true, raw, pu, some env⟩ = .err (.boxedStr "dfdf") := by
  simp [handle_response, h0, hr]

/-- Witness for C6 at a concrete envelope. -/
theorem handle_response_success_without_result_witness :
    handle_response (R := Nat)
        ⟨true, "ignored", none, some ⟨0, none, none, some (.jobj [])⟩⟩ =
      .err (.boxedStr "dfdf") :=
  handle_response_success_without_result ⟨0, none, none, some (.jobj [])⟩
    "ignored" none rfl rfl

/-! ### Claim C7 -/

/-- C7 counterexample: the error produced for the error envelope with
message Validation failed and structured validation detail is exactly
the error produced when the detail is absent; the boxed error carries
only the message, so the validation detail is not carried along. -/
theorem handle_error_envelope_drops_detail :
    handle_response (R := InvoiceResponse)
        ⟨true, "", none,
          some ⟨1, none, some "Validation failed",
            some (.jobj [("amount", .jarr [.jstr "required"])])⟩⟩ =
      .err (.boxedStr "Validation failed") ∧
    handle_response (R := InvoiceResponse)
        ⟨true, "", none, some ⟨1, none, some "Validation failed", none⟩⟩ =
      .err (.boxedStr "Validation failed") :=
  ⟨rfl, rfl⟩

/-- C7 (amended): for every 2xx response parsed as an envelope whose
state is nonzero and whose message is present, the handler fails, never
succeeds, with the boxed error carrying exactly that message; the
validation detail is discarded, the outcome being the same for every
value of the errors field. -/
theorem handle_response_error_envelope_message {R : Type}
    (env : GenericCryptomusResponse R) (raw : String)
    (pu : Option (GenericCryptomusResponse Unit)) (m : String)
    (hs : env.state ≠ 0) (hm : env.message = some m) :
    handle_response ⟨true, raw, pu, some env⟩ = .err (.boxedStr m) ∧
    ∀ e2 : Option JsonVal,
      handle_response (R := R) ⟨true, raw, pu,
          some ⟨env.state, env.result, env.message, e2⟩⟩ =
        .err (.boxedStr m) := by
  constructor
  · simp [handle_response, hs, hm]
  · intro e2
    simp [handle_response, hs, hm]

/-- Witness for C7 at the envelope from the specification example. -/
theorem handle_response_error_envelope_message_witness :
    handle_response (R := InvoiceResponse)
        ⟨true, "body", none,
          some ⟨1, none, some "Validation failed",
            some (.jobj [("amount", .jarr [.jstr "required"])])⟩⟩ =
      .err (.boxedStr "Validation failed") :=
  (handle_response_error_envelope_message
    ⟨1, none, some "Validation failed",
      some (.jobj [("amount", .jarr [.jstr "required"])])⟩
    "body" none "Validation failed" (by decide) rfl).1

/-! ### Claim C8 -/

/-- Stated from the claim wording: a wire value that arrived as null or
as the empty string is normalized to absent, and a non-empty string
value is preserved unchanged. -/
def optNormalized (wire decoded : Option String) : Prop :=
  (wire = none → decoded = none) ∧
  (wire = some "" → decoded = none) ∧
  ∀ s, s ≠ "" → wire = some s → decoded = some s

/-- The shared decoding rule realizes the normalization contract. -/
theorem deserialize_optional_string_normalizes (w : Option String) :
    optNormalized w (deserialize_optional_string w) := by
  refine ⟨?_, ?_, ?_⟩
  · rintro rfl
    rfl
  · rintro rfl
    rfl
  · rintro s hs rfl
    rw [deserialize_optional_string, Option.filter_some]
    simp [isEmpty_false_of_ne s hs]

/-- C8: the envelope handler returns the decoded invoice of a captured
success envelope unchanged, and the decoded entity keeps every plain
field exactly, decodes the two status strings, and normalizes every
optional string field: null and the empty string become absent, and a
non-empty value is preserved. -/
theorem decode_success_envelope_matches (raw : RawInvoice) :
    (∀ (raw_text : String) (pu : Option (GenericCryptomusResponse Unit)),
      handle_response ⟨true, raw_text, pu,
          some ⟨0, some (decodeInvoice raw), none, none⟩⟩ =
        .ok (decodeInvoice raw)) ∧
    (decodeInvoice raw).uuid = raw.uuid ∧
    (decodeInvoice raw).order_id = raw.order_id ∧
    (decodeInvoice raw).amount = raw.amount ∧
    (decodeInvoice raw).currency = raw.currency ∧
    (decodeInvoice raw).url = raw.url ∧
    (decodeInvoice raw).expired_at = raw.expired_at ∧
    (decodeInvoice raw).is_final = raw.is_final ∧
    (decodeInvoice raw).created_at = raw.created_at ∧
    (decodeInvoice raw).updated_at = raw.updated_at ∧
    (decodeInvoice raw).discount_percent = raw.discount_percent ∧
    (decodeInvoice raw).payment_status = paymentStatusFromString raw.payment_status ∧
    (decodeInvoice raw).status_alias = paymentStatusFromString raw.status_alias ∧
    optNormalized raw.payment_amount (decodeInvoice raw).payment_amount ∧
    optNormalized raw.payer_amount (decodeInvoice raw).payer_amount ∧
    optNormalized raw.discount (decodeInvoice raw).discount ∧
    optNormalized raw.payer_currency (decodeInvoice raw).payer_currency ∧
    optNormalized raw.merchant_amount (decodeInvoice raw).merchant_amount ∧
    optNormalized raw.network (decodeInvoice raw).network ∧
    optNormalized raw.address (decodeInvoice raw).address ∧
    optNormalized raw.from_addr (decodeInvoice raw).from_addr ∧
    optNormalized raw.txid (decodeInvoice raw).txid ∧
    optNormalized raw.additional_data (decodeInvoice raw).additional_data ∧
    optNormalized raw.comments (decodeInvoice raw).comments := by
  refine ⟨fun raw_text pu => rfl, rfl, rfl, rfl, rfl, rfl, rfl, rfl, rfl, rfl,
    rfl, rfl, rfl, ?_, ?_, ?_, ?_, ?_, ?_, ?_, ?_, ?_, ?_, ?_⟩ <;>
    exact deserialize_optional_string_normalizes _

/-- Witness for C8 at a concrete raw invoice mixing absent, empty and
non-empty optional fields, with the normalized entity evaluated. -/
theorem decode_success_envelope_matches_witness :
    handle_response ⟨true, "", none,
        some ⟨0, some (decodeInvoice rawInvoiceExample), none, none⟩⟩ =
      .ok (decodeInvoice rawInvoiceExample) ∧
    (decodeInvoice rawInvoiceExample).payment_amount = none ∧
    (decodeInvoice rawInvoiceExample).payer_amount = none ∧
    (decodeInvoice rawInvoiceExample).address = none ∧
    (decodeInvoice rawInvoiceExample).additional_data = none ∧
    (decodeInvoice rawInvoiceExample).txid = some "0xabc" ∧
    (decodeInvoice rawInvoiceExample).network = some "tron" ∧
    (decodeInvoice rawInvoiceExample).payment_status = .PaidOver :=
  ⟨(decode_success_envelope_matches rawInvoiceExample).1 "" none,
   by decide, by decide, by decide, by decide, by decide, by decide, by decide⟩

/-! ### Claim C9 -/

/-- C9: each known snake_case lifecycle label decodes to its variant, in
particular paid_over to the paid-over variant, and every string outside
the label set decodes to the Unknown catch-all instead of failing; the
decoder is a total function on strings. -/
theorem paymentStatus_decode_labels :
    paymentStatusFromString "paid_over" = .PaidOver ∧
    paymentStatusLabels.map paymentStatusFromString =
      [.Paid, .PaidOver, .WrongAmount, .Process, .ConfirmCheck,
       .WrongAmountWaiting, .Check, .Fail, .Cancel, .SystemFail,
       .RefundProcess, .RefundFail, .RefundPaid, .Locked] ∧
    ∀ s, s ∉ paymentStatusLabels → paymentStatusFromString s = .Unknown := by
  refine ⟨by decide, by decide, ?_⟩
  intro s hs
  simp only [paymentStatusLabels, List.mem_cons, List.not_mem_nil, or_false,
    not_or] at hs
  obtain ⟨h1, h2, h3, h4, h5, h6, h7, h8, h9, h10, h11, h12, h13, h14⟩ := hs
  simp [paymentStatusFromString, h1, h2, h3, h4, h5, h6, h7, h8, h9, h10,
    h11, h12, h13, h14]

/-- Witness for C9: an unknown future label decodes to Unknown. -/
theorem paymentStatus_decode_labels_witness :
    paymentStatusFromString "new_future_status" = .Unknown :=
  paymentStatus_decode_labels.2.2 "new_future_status" (by decide)

/-! ### Claim C10 -/

/-- C10: an envelope with nonzero state and no message makes the handler
panic through unwrap on None instead of returning a typed error, both on
the non-success-status parseable-envelope path and on the
success-status error-envelope path. -/
theorem handle_response_missing_message_panics {R : Type}
    (raw : String) (env_u : GenericCryptomusResponse Unit)
    (env : GenericCryptomusResponse R)
    (pt : Option (GenericCryptomusResponse R))
    (pu : Option (GenericCryptomusResponse Unit)) :
    (env_u.state ≠ 0 → env_u.message = none →
      handle_response (R := R) ⟨false, raw, some env_u, pt⟩ =
        .panicked "called Option::unwrap on a None value") ∧
    (env.state ≠ 0 → env.message = none →
      handle_response ⟨true, raw, pu, some env⟩ =
        .panicked "called Option::unwrap on a None value") := by
  constructor
  · intro _ hm
    simp [handle_response, hm]
  · intro hs hm
    simp [handle_response, hs, hm]

/-- Witness for C10 on both paths at concrete envelopes. -/
theorem handle_response_missing_message_panics_witness :
    handle_response (R := InvoiceResponse)
        ⟨false, "err body", some ⟨1, none, none, none⟩, none⟩ =
      .panicked "called Option::unwrap on a None value" ∧
    handle_response (R := InvoiceResponse)
        ⟨true, "", none, some ⟨2, none, none, none⟩⟩ =
      .panicked "called Option::unwrap on a None value" :=
  ⟨(handle_response_missing_message_panics "err body" ⟨1, none, none, none⟩
      ⟨2, none, none, none⟩ none none).1 (by decide) rfl,
   (handle_response_missing_message_panics "" ⟨1, none, none, none⟩
      ⟨2, none, none, none⟩ none none).2 (by decide) rfl⟩
